import Mathlib

/-!
Verification of the upgrade-rule logic of `arangodb/go-upgrade-rules`
(`rules.go`), against its natural-language specification.

The Go code decides whether upgrading an ArangoDB deployment from one
semantic version to another (optionally with a license transition) is
allowed.  We embed the code shallowly: `driver.Version` is a string,
Go `error` results become `Option UpgradeError` (`none` = nil = allowed,
`some e` = denial carrying the reason produced at one specific
`fmt.Errorf` site), and Go `int` is `Int` with `strconv.Atoi`'s 64-bit
range check made explicit.
-/

/-- Embedding of Go `strings.Split(s, ".")` on the character list of the
string: split at every `'.'`; `n` separators yield `n + 1` pieces, the
empty string yields one empty piece. -/
def splitDot : List Char → List (List Char)
  | [] => [[]]
  | c :: cs =>
    match splitDot cs with
    | [] => [[]]
    | p :: ps => if c = '.' then [] :: p :: ps else (c :: p) :: ps

/-- The numeric value of a list of decimal digit characters, most
significant first (as accumulated by Go's integer parsing). -/
def digitsVal (ds : List Char) : Nat :=
  ds.foldl (fun a c => a * 10 + (c.toNat - 48)) 0

/-- Embedding of Go `strconv.Atoi` (= `strconv.ParseInt(s, 10, 64)` on a
64-bit platform): an optional single leading sign, then a non-empty run
of decimal digits and nothing else, with the result required to fit in a
signed 64-bit integer; `none` stands for a non-nil `error`. -/
def goAtoi (s : List Char) : Option Int :=
  let neg : Bool := s.headD ' ' = '-'
  let ds : List Char := if s.headD ' ' = '-' ∨ s.headD ' ' = '+' then s.tail else s
  if ds = [] then none
  else if ds.all fun c => decide ('0' ≤ c ∧ c ≤ '9') then
    if neg then
      if digitsVal ds ≤ 2 ^ 63 then some (-(digitsVal ds : Int)) else none
    else
      if digitsVal ds < 2 ^ 63 then some ((digitsVal ds : Int)) else none
  else none

/-- Go `driver.Version` is a named string type; versions are passed to
this package as strings such as `"3.12.7-rc1"`. -/
abbrev Version := String

/-- Modelled from the spec: the external `driver.Version` capability
(declared out of scope by the spec, which requires only "integer major
and minor accessors" over the canonical dot-separated string form) —
`Major` is the integer value of the first dot-delimited component,
with 0 as the fallback when parsing fails. -/
def Version.Major (v : Version) : Int :=
  (goAtoi ((splitDot v.toList).headD [])).getD 0

/-- Modelled from the spec: the external `driver.Version` capability's
minor accessor — the integer value of the second dot-delimited
component, with 0 as the fallback when it is missing or unparseable. -/
def Version.Minor (v : Version) : Int :=
  (goAtoi ((splitDot v.toList).getD 1 [])).getD 0

/-- Embedding of the truncation loop inside `getPatch` (`rules.go`
lines 78-83): scan the patch component and cut it at the first
character outside `'0'..'9'`, keeping the leading digit run. -/
def stripNonDigitSuffix : List Char → List Char
  | [] => []
  | c :: cs => if c < '0' ∨ '9' < c then [] else c :: stripNonDigitSuffix cs

/-- Embedding of `getPatch` (`rules.go` lines 61-93): split the version
string on dots; with fewer than three components return 0; otherwise
truncate the third component at its first non-digit and `Atoi` it,
returning 0 when the conversion fails. -/
def getPatch (v : Version) : Int :=
  let parts := splitDot v.toList
  if parts.length < 3 then 0
  else
    let patchStr := stripNonDigitSuffix (parts.getD 2 [])
    match goAtoi patchStr with
    | none => 0
    | some p => p

/-- Embedding of the Go `License` enumeration (`rules.go` lines 34-41). -/
inductive License where
  | community
  | enterprise
deriving DecidableEq, Repr

/-- One constructor per `fmt.Errorf` site in `rules.go`; arguments are
the format-verb parameters of the site. -/
inductive UpgradeError where
  | majorDowngrade
  | majorSkip
  | majorUpgradeNotToZero
  | majorUpgradeNotAllowedFromLine (fromMajor fromMinor toMajor : Int)
  | patchTooLowForMajorUpgrade (toMajor fromMajor fromMinor minPatch : Int)
  | minorDowngrade
  | minorSkip
  | licenseDowngrade
deriving DecidableEq, Repr

/-- The exact message each `fmt.Errorf` site of `rules.go` renders. -/
def UpgradeError.message : UpgradeError → String
  | .majorDowngrade =>
      "Major versions are different: downgrade of major version is not allowed"
  | .majorSkip =>
      "Major versions are different: major versions may only increment by 1"
  | .majorUpgradeNotToZero =>
      "Major versions are different: major upgrades are only allowed to X.0"
  | .majorUpgradeNotAllowedFromLine fM fm tM =>
      "Major versions are different: major upgrade from " ++ toString fM ++ "."
        ++ toString fm ++ " to " ++ toString tM ++ ".0 is not allowed"
  | .patchTooLowForMajorUpgrade tM fM fm mp =>
      "Upgrade to " ++ toString tM ++ ".0 requires at least " ++ toString fM
        ++ "." ++ toString fm ++ "." ++ toString mp
  | .minorDowngrade => "Downgrade of minor version is not allowed"
  | .minorSkip => "Minor versions may only increment by 1"
  | .licenseDowngrade =>
      "Upgrade from Enterprise to Community edition is not possible"

/-- Embedding of the `minPatchForMajorUpgrade` map (`rules.go` lines
46-48): key `"fromMajor.fromMinor"`, single entry `"3.12" → 7`. -/
def minPatchForMajorUpgrade (key : String) : Option Int :=
  if key = "3.12" then some 7 else none

/-- The lookup key `fmt.Sprintf("%d.%d", from.Major(), from.Minor())`
built in `checkMinPatchForMajorUpgrade` (`rules.go` line 101). -/
def majorMinorKey (v : Version) : String :=
  toString (Version.Major v) ++ "." ++ toString (Version.Minor v)

/-- Embedding of `checkMinPatchForMajorUpgrade` (`rules.go` lines
97-110). -/
def checkMinPatchForMajorUpgrade (fromV toV : Version) : Option UpgradeError :=
  if Version.Major toV ≠ Version.Major fromV + 1 ∨ Version.Minor toV ≠ 0 then
    none
  else
    match minPatchForMajorUpgrade (majorMinorKey fromV) with
    | none =>
        some (.majorUpgradeNotAllowedFromLine (Version.Major fromV)
          (Version.Minor fromV) (Version.Major toV))
    | some minPatch =>
        if getPatch fromV ≥ minPatch then none
        else
          some (.patchTooLowForMajorUpgrade (Version.Major toV)
            (Version.Major fromV) (Version.Minor fromV) minPatch)

/-- Embedding of `CheckUpgradeRules` (`rules.go` lines 116-158), the
Strict checker. -/
def CheckUpgradeRules (fromV toV : Version) : Option UpgradeError :=
  if Version.Major fromV ≠ Version.Major toV then
    if Version.Major toV < Version.Major fromV then some .majorDowngrade
    else if Version.Major toV ≠ Version.Major fromV + 1 then some .majorSkip
    else if Version.Minor toV ≠ 0 then some .majorUpgradeNotToZero
    else checkMinPatchForMajorUpgrade fromV toV
  else if Version.Minor fromV ≠ Version.Minor toV then
    if Version.Minor toV < Version.Minor fromV then some .minorDowngrade
    else if Version.Minor toV ≠ Version.Minor fromV + 1 then some .minorSkip
    else none
  else none

/-- Embedding of `CheckSoftUpgradeRules` (`rules.go` lines 165-202), the
Permissive checker. -/
def CheckSoftUpgradeRules (fromV toV : Version) : Option UpgradeError :=
  if Version.Major fromV ≠ Version.Major toV then
    if Version.Major toV < Version.Major fromV then some .majorDowngrade
    else if Version.Major toV ≠ Version.Major fromV + 1 then some .majorSkip
    else if Version.Minor toV ≠ 0 then some .majorUpgradeNotToZero
    else checkMinPatchForMajorUpgrade fromV toV
  else if Version.Minor toV < Version.Minor fromV then some .minorDowngrade
  else none

/-- Embedding of `CheckUpgradeRulesWithLicense` (`rules.go` lines
209-214). -/
def CheckUpgradeRulesWithLicense (fromV toV : Version)
    (fromLicense toLicense : License) : Option UpgradeError :=
  if fromLicense ≠ toLicense ∧ fromLicense = .enterprise then
    some .licenseDowngrade
  else CheckUpgradeRules fromV toV

/-- Embedding of `CheckSoftUpgradeRulesWithLicense` (`rules.go` lines
222-227). -/
def CheckSoftUpgradeRulesWithLicense (fromV toV : Version)
    (fromLicense toLicense : License) : Option UpgradeError :=
  if fromLicense ≠ toLicense ∧ fromLicense = .enterprise then
    some .licenseDowngrade
  else CheckSoftUpgradeRules fromV toV

example : CheckUpgradeRules "3.12.7" "4.0.0" = none := by decide
example : CheckUpgradeRules "3.12.6" "4.0.0"
    = some (.patchTooLowForMajorUpgrade 4 3 12 7) := by decide
example : CheckUpgradeRules "3.12.rc7" "4.0.0"
    = some (.patchTooLowForMajorUpgrade 4 3 12 7) := by decide
example : CheckUpgradeRules "3.11.0" "4.0.0"
    = some (.majorUpgradeNotAllowedFromLine 3 11 4) := by decide
example : CheckUpgradeRules "4.0.0" "4.2.0" = some .minorSkip := by decide
example : CheckSoftUpgradeRules "4.0.0" "4.2.0" = none := by decide
example : getPatch "3.12.7-rc1" = 7 := by decide
example : getPatch "3.12" = 0 := by decide

/-! ## Helper lemmas -/

theorem stripNonDigitSuffix_eq_takeWhile (l : List Char) :
    stripNonDigitSuffix l = l.takeWhile fun c => decide ('0' ≤ c ∧ c ≤ '9') := by
  induction l with
  | nil => rfl
  | cons c cs ih =>
    rw [stripNonDigitSuffix, List.takeWhile_cons]
    by_cases hc : c < '0' ∨ '9' < c
    · rw [if_pos hc, if_neg]
      simp only [decide_eq_true_eq]
      rw [not_and_or, not_le, not_le]
      exact hc
    · rw [if_neg hc, if_pos, ih]
      simp only [decide_eq_true_eq]
      rw [not_or, not_lt, not_lt] at hc
      exact hc

theorem goAtoi_digitRun (run : List Char)
    (hall : ∀ c ∈ run, '0' ≤ c ∧ c ≤ '9') :
    goAtoi run = if run = [] then none
      else if digitsVal run < 2 ^ 63 then some ((digitsVal run : Int)) else none := by
  cases run with
  | nil => rfl
  | cons c cs =>
    have hdig : '0' ≤ c ∧ c ≤ '9' := hall c (List.mem_cons_self c cs)
    have hminus : c ≠ '-' := by rintro rfl; revert hdig; decide
    have hplus : c ≠ '+' := by rintro rfl; revert hdig; decide
    have hsign : ¬(c = '-' ∨ c = '+') := by simp [hminus, hplus]
    have hall' : (c :: cs).all (fun x => decide ('0' ≤ x ∧ x ≤ '9')) = true := by
      rw [List.all_eq_true]
      intro x hx
      exact decide_eq_true (hall x hx)
    rw [if_neg (show ¬(c :: cs = []) by simp)]
    simp only [goAtoi, List.headD_cons, if_neg hsign,
      if_neg (show ¬(c :: cs = []) by simp), hall', if_true,
      decide_eq_false hminus, Bool.false_eq_true, if_false]

/-! ## Claims -/

/-- Claim C4: for every pair of versions, if the target major is smaller
than the source major both checkers deny with the major-downgrade
reason, and if the target major exceeds the source major by more than 1
both deny with the major-skip reason. -/
theorem c4_major_downgrade_and_skip (fromV toV : Version) :
    (Version.Major toV < Version.Major fromV →
      CheckUpgradeRules fromV toV = some .majorDowngrade ∧
      CheckSoftUpgradeRules fromV toV = some .majorDowngrade) ∧
    (Version.Major fromV + 1 < Version.Major toV →
      CheckUpgradeRules fromV toV = some .majorSkip ∧
      CheckSoftUpgradeRules fromV toV = some .majorSkip) := by
  unfold CheckUpgradeRules CheckSoftUpgradeRules
  constructor <;> intro h <;> constructor <;> split_ifs <;> first | rfl | omega

/-- Witness for C4 at concrete transitions from the repository's test
table: a major downgrade and a two-major skip. -/
theorem c4_witness :
    CheckUpgradeRules "2.2.3" "1.2.3" = some .majorDowngrade ∧
    CheckSoftUpgradeRules "2.2.3" "1.2.3" = some .majorDowngrade ∧
    CheckUpgradeRules "3.12.7" "5.0.0" = some .majorSkip ∧
    CheckSoftUpgradeRules "3.12.7" "5.0.0" = some .majorSkip := by
  refine ⟨?_, ?_, ?_, ?_⟩
  · exact ((c4_major_downgrade_and_skip "2.2.3" "1.2.3").1 (by decide)).1
  · exact ((c4_major_downgrade_and_skip "2.2.3" "1.2.3").1 (by decide)).2
  · exact ((c4_major_downgrade_and_skip "3.12.7" "5.0.0").2 (by decide)).1
  · exact ((c4_major_downgrade_and_skip "3.12.7" "5.0.0").2 (by decide)).2

/-- Claim C5: a major+1 transition whose target minor is nonzero is
denied by both checkers with the only-to-X.0 reason, regardless of the
patch components. -/
theorem c5_major_upgrade_only_to_zero (fromV toV : Version)
    (hmaj : Version.Major toV = Version.Major fromV + 1)
    (hmin : Version.Minor toV ≠ 0) :
    CheckUpgradeRules fromV toV = some .majorUpgradeNotToZero ∧
    CheckSoftUpgradeRules fromV toV = some .majorUpgradeNotToZero := by
  unfold CheckUpgradeRules CheckSoftUpgradeRules
  constructor <;> split_ifs <;> first | rfl | omega

/-- Witness for C5 at the test table's transition `3.12.7 → 4.1.0`. -/
theorem c5_witness :
    CheckUpgradeRules "3.12.7" "4.1.0" = some .majorUpgradeNotToZero ∧
    CheckSoftUpgradeRules "3.12.7" "4.1.0" = some .majorUpgradeNotToZero :=
  c5_major_upgrade_only_to_zero "3.12.7" "4.1.0" (by decide) (by decide)

/-- Claim C7: a same-major transition with a smaller target minor is
denied by both checkers with the minor-downgrade reason. -/
theorem c7_minor_downgrade (fromV toV : Version)
    (hmaj : Version.Major fromV = Version.Major toV)
    (hmin : Version.Minor toV < Version.Minor fromV) :
    CheckUpgradeRules fromV toV = some .minorDowngrade ∧
    CheckSoftUpgradeRules fromV toV = some .minorDowngrade := by
  unfold CheckUpgradeRules CheckSoftUpgradeRules
  constructor <;> split_ifs <;> first | rfl | omega

/-- Witness for C7 at the test table's transition `3.3.2 → 3.2.10`. -/
theorem c7_witness :
    CheckUpgradeRules "3.3.2" "3.2.10" = some .minorDowngrade ∧
    CheckSoftUpgradeRules "3.3.2" "3.2.10" = some .minorDowngrade :=
  c7_minor_downgrade "3.3.2" "3.2.10" (by decide) (by decide)

/-- Claim C8: when major and minor agree, both checkers allow,
whatever the patch components do (including the identity transition). -/
theorem c8_same_major_minor_allowed (fromV toV : Version)
    (hmaj : Version.Major fromV = Version.Major toV)
    (hmin : Version.Minor fromV = Version.Minor toV) :
    CheckUpgradeRules fromV toV = none ∧
    CheckSoftUpgradeRules fromV toV = none := by
  unfold CheckUpgradeRules CheckSoftUpgradeRules
  constructor <;> split_ifs <;> first | rfl | omega

/-- Witness for C8: the identity transition `1.2.3 → 1.2.3` and the
patch-downgrade-to-malformed transition `3.2.88 → 3.2.rc7` from the
test table. -/
theorem c8_witness :
    CheckUpgradeRules "1.2.3" "1.2.3" = none ∧
    CheckSoftUpgradeRules "1.2.3" "1.2.3" = none ∧
    CheckUpgradeRules "3.2.88" "3.2.rc7" = none ∧
    CheckSoftUpgradeRules "3.2.88" "3.2.rc7" = none := by
  refine ⟨?_, ?_, ?_, ?_⟩
  · exact (c8_same_major_minor_allowed "1.2.3" "1.2.3" rfl rfl).1
  · exact (c8_same_major_minor_allowed "1.2.3" "1.2.3" rfl rfl).2
  · exact (c8_same_major_minor_allowed "3.2.88" "3.2.rc7" (by decide) (by decide)).1
  · exact (c8_same_major_minor_allowed "3.2.88" "3.2.rc7" (by decide) (by decide)).2

/-- Claim C6: on a same-major forward minor change, Strict allows
exactly a +1 step and otherwise denies with the minor-skip reason,
while Permissive allows any forward minor jump. -/
theorem c6_minor_step_policies (fromV toV : Version)
    (hmaj : Version.Major fromV = Version.Major toV)
    (hmin : Version.Minor fromV < Version.Minor toV) :
    (CheckUpgradeRules fromV toV = none ↔
      Version.Minor toV = Version.Minor fromV + 1) ∧
    (Version.Minor toV ≠ Version.Minor fromV + 1 →
      CheckUpgradeRules fromV toV = some .minorSkip) ∧
    CheckSoftUpgradeRules fromV toV = none := by
  unfold CheckUpgradeRules CheckSoftUpgradeRules
  refine ⟨?_, ?_, ?_⟩
  · split_ifs <;> first | omega | simp_all
  · intro h
    split_ifs <;> first | rfl | omega
  · split_ifs <;> first | rfl | omega

/-- Witness for C6 at the spec's concrete scenario `4.0.0 → 4.2.0`. -/
theorem c6_witness :
    CheckUpgradeRules "4.0.0" "4.2.0" = some .minorSkip ∧
    CheckSoftUpgradeRules "4.0.0" "4.2.0" = none := by
  constructor
  · exact (c6_minor_step_policies "4.0.0" "4.2.0" (by decide) (by decide)).2.1 (by decide)
  · exact (c6_minor_step_policies "4.0.0" "4.2.0" (by decide) (by decide)).2.2

/-- Claim C10: whenever the Strict checker allows a transition, the
Permissive checker allows it as well. -/
theorem c10_soft_at_least_as_permissive (fromV toV : Version)
    (h : CheckUpgradeRules fromV toV = none) :
    CheckSoftUpgradeRules fromV toV = none := by
  unfold CheckUpgradeRules at h
  unfold CheckSoftUpgradeRules
  split_ifs at h ⊢ <;> first | rfl | exact h | omega

/-- Witness for C10 at the identity transition `1.2.3 → 1.2.3`. -/
theorem c10_witness : CheckSoftUpgradeRules "1.2.3" "1.2.3" = none :=
  c10_soft_at_least_as_permissive "1.2.3" "1.2.3" (by decide)

/-- Claim C2: on a major+1 transition to minor 0, a source line absent
from the minimum-patch table is denied by both checkers with the
not-allowed-from-line reason; from the 3.12 line (table entry 7) the
transition is allowed exactly when the extracted patch is at least 7,
and otherwise denied with the patch-too-low reason. -/
theorem c2_min_patch_gate (fromV toV : Version)
    (hmaj : Version.Major toV = Version.Major fromV + 1)
    (hmin : Version.Minor toV = 0) :
    (minPatchForMajorUpgrade (majorMinorKey fromV) = none →
      CheckUpgradeRules fromV toV = some (.majorUpgradeNotAllowedFromLine
        (Version.Major fromV) (Version.Minor fromV) (Version.Major toV)) ∧
      CheckSoftUpgradeRules fromV toV = some (.majorUpgradeNotAllowedFromLine
        (Version.Major fromV) (Version.Minor fromV) (Version.Major toV))) ∧
    (Version.Major fromV = 3 → Version.Minor fromV = 12 →
      (CheckUpgradeRules fromV toV = none ↔ 7 ≤ getPatch fromV) ∧
      (CheckSoftUpgradeRules fromV toV = none ↔ 7 ≤ getPatch fromV) ∧
      (getPatch fromV < 7 →
        CheckUpgradeRules fromV toV
          = some (.patchTooLowForMajorUpgrade (Version.Major toV) 3 12 7) ∧
        CheckSoftUpgradeRules fromV toV
          = some (.patchTooLowForMajorUpgrade (Version.Major toV) 3 12 7))) := by
  have hs : CheckUpgradeRules fromV toV = checkMinPatchForMajorUpgrade fromV toV := by
    unfold CheckUpgradeRules
    split_ifs <;> first | rfl | omega
  have hsoft : CheckSoftUpgradeRules fromV toV
      = checkMinPatchForMajorUpgrade fromV toV := by
    unfold CheckSoftUpgradeRules
    split_ifs <;> first | rfl | omega
  have hgate : ¬(Version.Major toV ≠ Version.Major fromV + 1 ∨
      Version.Minor toV ≠ 0) := by omega
  rw [hs, hsoft]
  constructor
  · intro hnone
    unfold checkMinPatchForMajorUpgrade
    rw [if_neg hgate, hnone]
    exact ⟨rfl, rfl⟩
  · intro h3 h12
    have hkeyv : majorMinorKey fromV = "3.12" := by
      unfold majorMinorKey
      rw [h3, h12]
      decide
    have hkey : minPatchForMajorUpgrade (majorMinorKey fromV) = some 7 := by
      rw [hkeyv]
      decide
    have hcheck : checkMinPatchForMajorUpgrade fromV toV
        = if getPatch fromV ≥ 7 then none
          else some (.patchTooLowForMajorUpgrade (Version.Major toV) 3 12 7) := by
      unfold checkMinPatchForMajorUpgrade
      rw [if_neg hgate, hkey, h3, h12]
    rw [hcheck]
    by_cases hp : getPatch fromV ≥ 7
    · rw [if_pos hp]
      exact ⟨⟨fun _ => hp, fun _ => rfl⟩, ⟨fun _ => hp, fun _ => rfl⟩,
        fun hlt => absurd hp (by omega)⟩
    · rw [if_neg hp]
      refine ⟨⟨fun h => ?_, fun h => absurd h (by omega)⟩,
        ⟨fun h => ?_, fun h => absurd h (by omega)⟩, fun _ => ⟨rfl, rfl⟩⟩
      · exact absurd h (by simp)
      · exact absurd h (by simp)

/-- Witness for C2 at the spec's concrete scenarios: `3.11.0 → 4.0.0`
(no table entry), `3.12.7 → 4.0.0` (allowed), `3.12.6 → 4.0.0`
(patch too low). -/
theorem c2_witness :
    CheckUpgradeRules "3.11.0" "4.0.0"
      = some (.majorUpgradeNotAllowedFromLine 3 11 4) ∧
    CheckUpgradeRules "3.12.7" "4.0.0" = none ∧
    CheckUpgradeRules "3.12.6" "4.0.0"
      = some (.patchTooLowForMajorUpgrade 4 3 12 7) := by
  refine ⟨?_, ?_, ?_⟩
  · exact ((c2_min_patch_gate "3.11.0" "4.0.0" (by decide) (by decide)).1
      (by decide)).1
  · exact ((c2_min_patch_gate "3.12.7" "4.0.0" (by decide) (by decide)).2
      (by decide) (by decide)).1.mpr (by decide)
  · exact (((c2_min_patch_gate "3.12.6" "4.0.0" (by decide) (by decide)).2
      (by decide) (by decide)).2.2 (by decide)).1

/-- Claim C3: the license-checking entry points deny with the
license-downgrade reason exactly when the source license is Enterprise
and the target license differs, independent of the versions; otherwise
they return the version-only verdict unchanged. -/
theorem c3_license_gate (fromV toV : Version) (fromL toL : License) :
    (fromL = .enterprise → toL ≠ fromL →
      CheckUpgradeRulesWithLicense fromV toV fromL toL = some .licenseDowngrade ∧
      CheckSoftUpgradeRulesWithLicense fromV toV fromL toL
        = some .licenseDowngrade) ∧
    (fromL = .community ∨ fromL = toL →
      CheckUpgradeRulesWithLicense fromV toV fromL toL
        = CheckUpgradeRules fromV toV ∧
      CheckSoftUpgradeRulesWithLicense fromV toV fromL toL
        = CheckSoftUpgradeRules fromV toV) := by
  unfold CheckUpgradeRulesWithLicense CheckSoftUpgradeRulesWithLicense
  constructor
  · rintro rfl hne
    rw [if_pos ⟨fun h => hne h.symm, rfl⟩, if_pos ⟨fun h => hne h.symm, rfl⟩]
    exact ⟨rfl, rfl⟩
  · intro h
    have hc : ¬(fromL ≠ toL ∧ fromL = License.enterprise) := by
      rcases h with h | h
      · rintro ⟨-, h2⟩
        rw [h] at h2
        cases h2
      · rintro ⟨h1, -⟩
        exact h1 h
    rw [if_neg hc, if_neg hc]
    exact ⟨rfl, rfl⟩

/-- Witness for C3 at the spec's concrete scenario: an identity version
transition with an Enterprise→Community license change is denied, while
Community→Enterprise defers to the version-only checker. -/
theorem c3_witness :
    CheckUpgradeRulesWithLicense "1.2.3" "1.2.3" .enterprise .community
      = some .licenseDowngrade ∧
    CheckSoftUpgradeRulesWithLicense "1.2.3" "1.2.3" .enterprise .community
      = some .licenseDowngrade ∧
    CheckUpgradeRulesWithLicense "1.2.3" "1.2.3" .community .enterprise
      = CheckUpgradeRules "1.2.3" "1.2.3" := by
  refine ⟨?_, ?_, ?_⟩
  · exact ((c3_license_gate "1.2.3" "1.2.3" .enterprise .community).1
      rfl (by decide)).1
  · exact ((c3_license_gate "1.2.3" "1.2.3" .enterprise .community).1
      rfl (by decide)).2
  · exact ((c3_license_gate "1.2.3" "1.2.3" .community .enterprise).2
      (Or.inl rfl)).1

/-- Transcription of the spec's §4.1 extractor contract, to be compared
with the code's `getPatch`: split on the component separator; fewer
than three components yield 0; otherwise take the integer value of the
leading run of decimal digits of the third component, discarding any
non-digit suffix, with 0 when the run is empty or its conversion
overflows a signed 64-bit integer. -/
def extractPatchSpec (s : String) : Int :=
  let parts := splitDot s.toList
  if parts.length < 3 then 0
  else
    let run := (parts.getD 2 []).takeWhile fun c => decide ('0' ≤ c ∧ c ≤ '9')
    if run = [] then 0
    else if digitsVal run < 2 ^ 63 then (digitsVal run : Int) else 0

/-- Claim C9: `getPatch` is total — it is a Lean function defined on
every string — and agrees with the spec's extractor contract
everywhere. -/
theorem c9_getPatch_meets_extractor_contract (s : String) :
    getPatch s = extractPatchSpec s := by
  simp only [getPatch, extractPatchSpec]
  by_cases hlen : (splitDot s.toList).length < 3
  · rw [if_pos hlen, if_pos hlen]
  · rw [if_neg hlen, if_neg hlen, stripNonDigitSuffix_eq_takeWhile]
    set run := ((splitDot s.toList).getD 2 []).takeWhile
      fun c => decide ('0' ≤ c ∧ c ≤ '9') with hrundef
    have hall : ∀ c ∈ run, '0' ≤ c ∧ c ≤ '9' := by
      intro c hc
      rw [hrundef] at hc
      exact of_decide_eq_true
        (List.mem_takeWhile_imp (p := fun c => decide ('0' ≤ c ∧ c ≤ '9')) hc)
    rw [goAtoi_digitRun run hall]
    by_cases hempty : run = []
    · rw [if_pos hempty, if_pos hempty]
    · rw [if_neg hempty, if_neg hempty]
      by_cases hb : digitsVal run < 2 ^ 63
      · rw [if_pos hb, if_pos hb]
      · rw [if_neg hb, if_neg hb]

/-- Witness for C9: the spec's example input `"3.12.7-rc1"`, whose
patch extracts to 7. -/
theorem c9_witness :
    getPatch "3.12.7-rc1" = extractPatchSpec "3.12.7-rc1" ∧
    getPatch "3.12.7-rc1" = 7 :=
  ⟨c9_getPatch_meets_extractor_contract "3.12.7-rc1", by decide⟩

/-- Claim C1 (code behaviour at the failing input): both checkers deny
`3.12.rc7 → 4.0.0`, but with the very patch-too-low error they give
`3.12.6 → 4.0.0`, whose message is "Upgrade to 4.0 requires at least
3.12.7" — there is no distinct invalid-source-version-format reason in
`rules.go`, although the repository's own test for malformed patch
components demands one. -/
theorem c1_malformed_patch_not_distinguished :
    CheckUpgradeRules "3.12.rc7" "4.0.0"
      = some (.patchTooLowForMajorUpgrade 4 3 12 7) ∧
    CheckSoftUpgradeRules "3.12.rc7" "4.0.0"
      = some (.patchTooLowForMajorUpgrade 4 3 12 7) ∧
    CheckUpgradeRules "3.12.6" "4.0.0" = CheckUpgradeRules "3.12.rc7" "4.0.0" ∧
    (UpgradeError.patchTooLowForMajorUpgrade 4 3 12 7).message
      = "Upgrade to 4.0 requires at least 3.12.7" := by
  decide
